import Mathlib

/-! ESP32 Engine, Battery and Fuel Meter: calibration and engine run-time accounting

A shallow embedding of `src/main.cpp`.

* `unsigned long` is 32 bits wide on the ESP32.  Counters and times are natural
  numbers; every operation that can leave the range `[0, 2^32)` is reduced
  modulo `2^32` where the C++ does so.
* Voltages are finite readings of an analog input.  The only operation the
  engine-state lambda performs on its input is the comparison `input < 1.0`,
  which is exact, so a reading is modelled by the rational number it denotes.
* The calibration constants are modelled in exact (rational) arithmetic; the
  `linear...Transformer` definitions give the scale and offset the C++
  expressions denote for distinct calibration voltages.  `setupCalibrators`
  evaluates the same expressions in float arithmetic with the IEEE 754 special
  values, so that a division by zero yields an infinity or a NaN as in C++.
* `millis()` is an input of the engine-state lambda (`current_time`).
* The `Preferences` object and the `Linear` transform belong to external
  libraries; they are modelled by their contract.
-/

namespace EnBaFu

/-- Width of `unsigned long` on the target: values live in `[0, 2^32)`. -/
def ULONG_MOD : Nat := 2 ^ 32

/-- Unsigned 32-bit subtraction `a - b`, wrapping modulo `2^32`. -/
def usub (a b : Nat) : Nat := (a % ULONG_MOD + (ULONG_MOD - b % ULONG_MOD)) % ULONG_MOD

/-- Unsigned 32-bit addition `a + b`, wrapping modulo `2^32`. -/
def uadd (a b : Nat) : Nat := (a + b) % ULONG_MOD

/-! ## The durable key-value store (`Preferences`) -/

/-- Modelled from the spec: the durable counter store, an external key-value
capability with `open(namespace) -> bool`, `get(key, default)` and
`put(key, value) -> bool` (the Arduino `Preferences` class, not part of this
repository).  `opens` and `commits` are the environment's answers (does the
open succeed, does a put commit); `started` is the state of the handle;
`entries` is the durable content; `puts` records every `put` invocation. -/
structure Preferences where
  opens : Bool
  commits : Bool
  started : Bool
  entries : List (String × Nat)
  puts : List (String × Nat)
deriving DecidableEq, Repr

namespace Preferences

/-- Modelled from the spec: `open(namespace) -> bool`.  Returns whether the
store could be opened, and the handle afterwards. -/
def begin (p : Preferences) (_name : String) (_readOnly : Bool) : Bool × Preferences :=
  if p.opens then (true, { p with started := true }) else (false, { p with started := false })

/-- Modelled from the spec: `get(key, default) -> unsigned integer`: the value
stored under `key`, or `defaultValue` when there is none (or the store is not
open). -/
def getULong (p : Preferences) (key : String) (defaultValue : Nat) : Nat :=
  if p.started then
    match p.entries.lookup key with
    | some v => v
    | none => defaultValue
  else defaultValue

/-- Modelled from the spec: `put(key, value) -> bool`: the invocation is
recorded; the value becomes the durable content under `key` when the store is
open and the write commits. -/
def putULong (p : Preferences) (key : String) (value : Nat) : Preferences :=
  if p.started && p.commits then
    { p with entries := (key, value) :: p.entries, puts := p.puts ++ [(key, value)] }
  else
    { p with puts := p.puts ++ [(key, value)] }

end Preferences

/-! ## Global state -/

/-- The mutable globals of `main.cpp` (lines 61-64): `preferences`,
`previous_time` and `engine_running_time`. -/
structure Globals where
  previous_time : Nat
  engine_running_time : Nat
  preferences : Preferences
deriving DecidableEq, Repr

/-- The part of `setup()` that retrieves the last known `engine_running_time`
(lines 102-109).  The globals start at `previous_time = 0` and
`engine_running_time = 0`; the counter is only read from the store when the
store opens. -/
def setup (preferences : Preferences) : Globals :=
  let r := preferences.begin "propulsion" false
  if r.1 then
    { previous_time := 0
      engine_running_time := r.2.getULong "main_runTime" 1
      preferences := r.2 }
  else
    { previous_time := 0
      engine_running_time := 0
      preferences := r.2 }

/-- The lambda of `measuredVoltageToEngineStateTransformer` (lines 134-154).
`initial_engine_running_time` is the configuration global of line 42,
`current_time` is the value returned by `millis()`, `input` the measured
voltage.  Returns the engine-state label and the globals afterwards. -/
def measuredVoltageToEngineStateTransformer (initial_engine_running_time : Nat)
    (current_time : Nat) (input : ℚ) (g : Globals) : String × Globals :=
  if input < 1 then
    ("stopped", { g with previous_time := current_time })
  else if g.engine_running_time > 0 then
    let clamped :=
      if g.engine_running_time < initial_engine_running_time then initial_engine_running_time
      else g.engine_running_time
    let engine_running_time := uadd clamped (usub current_time g.previous_time / 1000)
    ("running",
      { previous_time := current_time
        engine_running_time := engine_running_time
        preferences := g.preferences.putULong "main_runTime" engine_running_time })
  else
    ("parameter error", { g with previous_time := current_time })

/-- One sample delivered to the engine-state lambda: the `millis()` reading and
the measured voltage. -/
structure Sample where
  current_time : Nat
  input : ℚ
deriving DecidableEq, Repr

/-- The globals after feeding a sequence of samples, one evaluation each. -/
def runGlobals (initial_engine_running_time : Nat) : Globals → List Sample → Globals
  | g, [] => g
  | g, s :: rest =>
    runGlobals initial_engine_running_time
      (measuredVoltageToEngineStateTransformer initial_engine_running_time
        s.current_time s.input g).2 rest

/-- The trace of a sequence of evaluations: for each sample the returned label
and the globals after that evaluation. -/
def evaluations (initial_engine_running_time : Nat) : Globals → List Sample → List (String × Globals)
  | _, [] => []
  | g, s :: rest =>
    let r := measuredVoltageToEngineStateTransformer initial_engine_running_time
      s.current_time s.input g
    r :: evaluations initial_engine_running_time r.2 rest

/-- Whether the seed assignment `engine_running_time = initial_engine_running_time`
(line 142) is executed by the evaluation of `input` in state `g`. -/
def seedAssigned (initial_engine_running_time : Nat) (input : ℚ) (g : Globals) : Prop :=
  ¬ input < 1 ∧ g.engine_running_time > 0 ∧ g.engine_running_time < initial_engine_running_time

instance (i : Nat) (v : ℚ) (g : Globals) : Decidable (seedAssigned i v g) := by
  unfold seedAssigned; infer_instance

/-- The accumulation of line 145 does not exceed the 32-bit range in the
evaluation of the sample in state `g` (only "running" evaluations accumulate). -/
def stepNoWrap (initial_engine_running_time : Nat) (s : Sample) (g : Globals) : Prop :=
  ¬ s.input < 1 → g.engine_running_time > 0 →
    max g.engine_running_time initial_engine_running_time
      + usub s.current_time g.previous_time / 1000 < ULONG_MOD

instance (i : Nat) (s : Sample) (g : Globals) : Decidable (stepNoWrap i s g) := by
  unfold stepNoWrap; infer_instance

/-- The 32-bit counter does not wrap in any evaluation of the sequence. -/
def noWrap (initial_engine_running_time : Nat) : Globals → List Sample → Prop
  | _, [] => True
  | g, s :: rest =>
    stepNoWrap initial_engine_running_time s g ∧
    noWrap initial_engine_running_time
      (measuredVoltageToEngineStateTransformer initial_engine_running_time
        s.current_time s.input g).2 rest

instance noWrapDecidable (i : Nat) : (g : Globals) → (l : List Sample) → Decidable (noWrap i g l)
  | _, [] => isTrue trivial
  | g, s :: rest =>
    have := noWrapDecidable i
      (measuredVoltageToEngineStateTransformer i s.current_time s.input g).2 rest
    by unfold noWrap; infer_instance

/-! ## Linear calibration -/

/-- The `Linear` transform of the SensESP library, `new Linear(multiplier,
offset)`, with its scale and offset in exact arithmetic. -/
structure Linear where
  multiplier : ℚ
  offset : ℚ
deriving DecidableEq, Repr

/-- Modelled from the spec: `apply(voltage) -> value = voltage * scale + offset`
(the `Linear` class is part of the external SensESP library). -/
def Linear.apply (l : Linear) (voltage : ℚ) : ℚ := voltage * l.multiplier + l.offset

/-- Line 159: `new Linear(1.0 / (full - empty), (-1.0 * empty) / (full - empty))`. -/
def linearTankLevelTransformer (tank_voltage_full tank_voltage_empty : ℚ) : Linear :=
  { multiplier := 1 / (tank_voltage_full - tank_voltage_empty)
    offset := (-1 * tank_voltage_empty) / (tank_voltage_full - tank_voltage_empty) }

/-- Line 160: `new Linear(capacity / (full - empty), (-capacity * empty) / (full - empty))`. -/
def linearTankVolumeTransformer (tank_capacity tank_voltage_full tank_voltage_empty : ℚ) :
    Linear :=
  { multiplier := tank_capacity / (tank_voltage_full - tank_voltage_empty)
    offset := (-tank_capacity * tank_voltage_empty) / (tank_voltage_full - tank_voltage_empty) }

/-- Lines 161-164: `new Linear(real_max / (max - min), (-real_max * min) / (max - min))`. -/
def linearMeasuredAlternatorVoltageTransformer (dc_source_real_voltage_max
    dc_source_measured_voltage_max dc_source_measured_voltage_min : ℚ) : Linear :=
  { multiplier := dc_source_real_voltage_max
      / (dc_source_measured_voltage_max - dc_source_measured_voltage_min)
    offset := (-dc_source_real_voltage_max * dc_source_measured_voltage_min)
      / (dc_source_measured_voltage_max - dc_source_measured_voltage_min) }

/-- Lines 165-168: the same expressions as for the alternator. -/
def linearMeasuredBattery0VoltageTransformer (dc_source_real_voltage_max
    dc_source_measured_voltage_max dc_source_measured_voltage_min : ℚ) : Linear :=
  { multiplier := dc_source_real_voltage_max
      / (dc_source_measured_voltage_max - dc_source_measured_voltage_min)
    offset := (-dc_source_real_voltage_max * dc_source_measured_voltage_min)
      / (dc_source_measured_voltage_max - dc_source_measured_voltage_min) }

/-- Lines 169-172: the same expressions as for the alternator. -/
def linearMeasuredBattery1VoltageTransformer (dc_source_real_voltage_max
    dc_source_measured_voltage_max dc_source_measured_voltage_min : ℚ) : Linear :=
  { multiplier := dc_source_real_voltage_max
      / (dc_source_measured_voltage_max - dc_source_measured_voltage_min)
    offset := (-dc_source_real_voltage_max * dc_source_measured_voltage_min)
      / (dc_source_measured_voltage_max - dc_source_measured_voltage_min) }

/-! ## The calibrator construction in float arithmetic

The definitions above are the scale and offset in exact arithmetic, which is
what the C++ expressions denote when the two calibration voltages differ.  The
construction block itself divides floats, and a float division by zero does
not fail: it yields an infinity or a NaN.  `FloatValue` adds these special
values to the exact finite ones (rounding of finite results is left out). -/

/-- A value of C++ floating-point arithmetic: a finite value (kept exact), one
of the two infinities, or NaN. -/
inductive FloatValue where
  | finite (q : ℚ)
  | posInf
  | negInf
  | nan
deriving DecidableEq, Repr

namespace FloatValue

/-- IEEE 754 addition on the special values: opposite infinities and NaN
operands give NaN. -/
def add : FloatValue → FloatValue → FloatValue
  | finite a, finite b => finite (a + b)
  | finite _, posInf => posInf
  | finite _, negInf => negInf
  | posInf, finite _ => posInf
  | negInf, finite _ => negInf
  | posInf, posInf => posInf
  | negInf, negInf => negInf
  | posInf, negInf => nan
  | negInf, posInf => nan
  | nan, _ => nan
  | _, nan => nan

/-- The infinity with the sign of `q * s` for an infinity of sign `s`
(`positive` says whether `s` is positive); `0 * inf` is NaN. -/
def scaleInf (q : ℚ) (positive : Bool) : FloatValue :=
  if q = 0 then nan
  else if 0 < q then (if positive then posInf else negInf)
  else (if positive then negInf else posInf)

/-- IEEE 754 multiplication on the special values. -/
def mul : FloatValue → FloatValue → FloatValue
  | finite a, finite b => finite (a * b)
  | finite a, posInf => scaleInf a true
  | finite a, negInf => scaleInf a false
  | posInf, finite b => scaleInf b true
  | negInf, finite b => scaleInf b false
  | posInf, posInf => posInf
  | negInf, negInf => posInf
  | posInf, negInf => negInf
  | negInf, posInf => negInf
  | nan, _ => nan
  | _, nan => nan

end FloatValue

/-- The `Linear` transform as the C++ constructs it, `new Linear(multiplier,
offset)` with float arguments, special values included. -/
structure FloatLinear where
  multiplier : FloatValue
  offset : FloatValue
deriving DecidableEq, Repr

/-- Modelled from the spec: `apply(voltage) -> value = voltage * scale + offset`
(the `Linear` class is part of the external SensESP library), in float
arithmetic. -/
def FloatLinear.apply (l : FloatLinear) (voltage : FloatValue) : FloatValue :=
  FloatValue.add (FloatValue.mul voltage l.multiplier) l.offset

theorem usub_eq_toNat (a b : Nat) :
    usub a b = (((a : Int) - (b : Int)) % 2 ^ 32).toNat := by
  unfold usub ULONG_MOD
  norm_num
  omega

theorem transformer_stopped (i t : Nat) (v : ℚ) (g : Globals) (hv : v < 1) :
    measuredVoltageToEngineStateTransformer i t v g
      = ("stopped", { g with previous_time := t }) := by
  simp [measuredVoltageToEngineStateTransformer, hv]

theorem transformer_running (i t : Nat) (v : ℚ) (g : Globals) (hv : ¬ v < 1)
    (hpos : 0 < g.engine_running_time) :
    measuredVoltageToEngineStateTransformer i t v g
      = ("running",
          { previous_time := t
            engine_running_time :=
              uadd (max g.engine_running_time i) (usub t g.previous_time / 1000)
            preferences := g.preferences.putULong "main_runTime"
              (uadd (max g.engine_running_time i) (usub t g.previous_time / 1000)) }) := by
  have hmax : (if g.engine_running_time < i then i else g.engine_running_time)
      = max g.engine_running_time i := by
    split_ifs with h
    · exact (max_eq_right (le_of_lt h)).symm
    · exact (max_eq_left (not_lt.mp h)).symm
  simp only [measuredVoltageToEngineStateTransformer, hv, if_false, gt_iff_lt, hpos, if_true, hmax]

theorem transformer_error (i t : Nat) (v : ℚ) (g : Globals) (hv : ¬ v < 1)
    (hzero : g.engine_running_time = 0) :
    measuredVoltageToEngineStateTransformer i t v g
      = ("parameter error", { g with previous_time := t }) := by
  simp [measuredVoltageToEngineStateTransformer, hv, hzero]

theorem puts_putULong (p : Preferences) (k : String) (v : Nat) :
    (p.putULong k v).puts = p.puts ++ [(k, v)] := by
  unfold Preferences.putULong
  split_ifs <;> rfl

theorem getULong_putULong (p : Preferences) (k : String) (v d : Nat)
    (hs : p.started = true) (hc : p.commits = true) :
    (p.putULong k v).getULong k d = v := by
  simp [Preferences.putULong, Preferences.getULong, hs, hc, List.lookup]

/-- The label is "running" exactly when the voltage is at least 1.0 and the
counter is positive. -/
theorem label_running_iff (i t : Nat) (v : ℚ) (g : Globals) :
    (measuredVoltageToEngineStateTransformer i t v g).1 = "running"
      ↔ ¬ v < 1 ∧ 0 < g.engine_running_time := by
  by_cases hv : v < 1
  · rw [transformer_stopped i t v g hv]
    simp [hv]
  · by_cases hpos : 0 < g.engine_running_time
    · rw [transformer_running i t v g hv hpos]
      simp [hv, hpos]
    · have hzero : g.engine_running_time = 0 := by omega
      rw [transformer_error i t v g hv hzero]
      simp [hzero]

/-- With the counter at 0 an evaluation only moves `previous_time`. -/
theorem transformer_of_zero (i t : Nat) (v : ℚ) (g : Globals)
    (hzero : g.engine_running_time = 0) :
    measuredVoltageToEngineStateTransformer i t v g
      = (if v < 1 then "stopped" else "parameter error", { g with previous_time := t }) := by
  by_cases hv : v < 1
  · rw [transformer_stopped i t v g hv]; simp [hv]
  · rw [transformer_error i t v g hv hzero]; simp [hv]

theorem evaluations_of_zero (i : Nat) (inputs : List Sample) :
    ∀ g : Globals, g.engine_running_time = 0 →
      (∀ r ∈ evaluations i g inputs,
        r.2.engine_running_time = 0 ∧ r.2.preferences = g.preferences)
      ∧ (evaluations i g inputs).map Prod.fst
          = inputs.map (fun s => if s.input < 1 then "stopped" else "parameter error")
      ∧ (runGlobals i g inputs).engine_running_time = 0
      ∧ (runGlobals i g inputs).preferences = g.preferences := by
  induction inputs with
  | nil => intro g hg; simp [evaluations, runGlobals, hg]
  | cons s rest ih =>
    intro g hg
    have hstep := transformer_of_zero i s.current_time s.input g hg
    have hnext := ih { g with previous_time := s.current_time } hg
    simp only [evaluations, runGlobals, hstep, List.map_cons, List.mem_cons]
    refine ⟨?_, ?_, hnext.2.2.1, hnext.2.2.2⟩
    · intro r hr
      rcases hr with rfl | hr
      · exact ⟨hg, rfl⟩
      · exact hnext.1 r hr
    · rw [hnext.2.1]

/-- An evaluation that does not wrap never lowers the counter. -/
theorem step_mono (i : Nat) (s : Sample) (g : Globals) (hnw : stepNoWrap i s g) :
    g.engine_running_time
      ≤ (measuredVoltageToEngineStateTransformer i s.current_time s.input g).2.engine_running_time
    := by
  by_cases hv : s.input < 1
  · rw [transformer_stopped i _ _ g hv]
  · by_cases hpos : 0 < g.engine_running_time
    · rw [transformer_running i _ _ g hv hpos]
      have h := hnw hv hpos
      simp only [uadd]
      rw [Nat.mod_eq_of_lt h]
      exact le_trans (le_max_left _ _) (Nat.le_add_right _ _)
    · have hzero : g.engine_running_time = 0 := by omega
      rw [transformer_error i _ _ g hv hzero]

/-- A "running" evaluation that does not wrap leaves the counter at or above
the seed. -/
theorem step_running_seed (i : Nat) (s : Sample) (g : Globals) (hnw : stepNoWrap i s g)
    (hrun : (measuredVoltageToEngineStateTransformer i s.current_time s.input g).1 = "running") :
    i ≤ (measuredVoltageToEngineStateTransformer i s.current_time s.input g).2.engine_running_time
    := by
  obtain ⟨hv, hpos⟩ := (label_running_iff i _ _ g).mp hrun
  rw [transformer_running i _ _ g hv hpos]
  have h := hnw hv hpos
  simp only [uadd]
  rw [Nat.mod_eq_of_lt h]
  exact le_trans (le_max_right _ _) (Nat.le_add_right _ _)

/-- Along a sequence that does not wrap the counter never decreases. -/
theorem runGlobals_mono (i : Nat) (inputs : List Sample) :
    ∀ g : Globals, noWrap i g inputs →
      g.engine_running_time ≤ (runGlobals i g inputs).engine_running_time := by
  induction inputs with
  | nil => intro g _; exact le_refl _
  | cons s rest ih =>
    intro g hnw
    exact le_trans (step_mono i s g hnw.1) (ih _ hnw.2)

/-- Along a sequence that does not wrap, a positive counter stays positive
after every evaluation and "parameter error" is never returned. -/
theorem evaluations_of_pos (i : Nat) (inputs : List Sample) :
    ∀ g : Globals, 0 < g.engine_running_time → noWrap i g inputs →
      ∀ r ∈ evaluations i g inputs,
        0 < r.2.engine_running_time ∧ r.1 ≠ "parameter error" := by
  induction inputs with
  | nil => intro g _ _ r hr; simp [evaluations] at hr
  | cons s rest ih =>
    intro g hpos hnw r hr
    have hpos2 : 0 < (measuredVoltageToEngineStateTransformer i s.current_time s.input
        g).2.engine_running_time := lt_of_lt_of_le hpos (step_mono i s g hnw.1)
    simp only [evaluations, List.mem_cons] at hr
    rcases hr with rfl | hr
    · refine ⟨hpos2, ?_⟩
      by_cases hv : s.input < 1
      · rw [transformer_stopped i _ _ g hv]
        show "stopped" ≠ "parameter error"
        decide
      · rw [transformer_running i _ _ g hv hpos]
        show "running" ≠ "parameter error"
        decide
    · exact ih _ hpos2 hnw.2 r hr

theorem runGlobals_append (i : Nat) (a b : List Sample) :
    ∀ g : Globals, runGlobals i g (a ++ b) = runGlobals i (runGlobals i g a) b := by
  induction a with
  | nil => intro g; rfl
  | cons s rest ih => intro g; exact ih _

theorem noWrap_append (i : Nat) (a b : List Sample) :
    ∀ g : Globals, noWrap i g (a ++ b) → noWrap i g a ∧ noWrap i (runGlobals i g a) b := by
  induction a with
  | nil => intro g h; exact ⟨trivial, h⟩
  | cons s rest ih =>
    intro g h
    have hrest := ih _ h.2
    exact ⟨⟨h.1, hrest.1⟩, hrest.2⟩

/-! ## The engine-state transform: single evaluations -/

/-- C1: an evaluation with voltage at least 1.0 and a positive counter returns
"running"; the new counter is `max(old, initial) + floor(((now - previous_time)
mod 2^32) / 1000)` in unsigned 32-bit arithmetic (so it is that sum itself
whenever the sum fits in 32 bits); that same value is handed to the store under
the key "main_runTime" (and is what the store then holds when it is open and
commits the write); and `previous_time` becomes `now`. -/
theorem running_step_accumulates (i now : Nat) (v : ℚ) (g : Globals)
    (hv : 1 ≤ v) (hpos : 0 < g.engine_running_time) :
    (measuredVoltageToEngineStateTransformer i now v g).1 = "running"
    ∧ (measuredVoltageToEngineStateTransformer i now v g).2.engine_running_time
        = (max g.engine_running_time i
            + (((now : Int) - (g.previous_time : Int)) % 2 ^ 32).toNat / 1000) % 2 ^ 32
    ∧ (max g.engine_running_time i
            + (((now : Int) - (g.previous_time : Int)) % 2 ^ 32).toNat / 1000 < 2 ^ 32 →
        (measuredVoltageToEngineStateTransformer i now v g).2.engine_running_time
          = max g.engine_running_time i
            + (((now : Int) - (g.previous_time : Int)) % 2 ^ 32).toNat / 1000)
    ∧ (measuredVoltageToEngineStateTransformer i now v g).2.preferences
        = g.preferences.putULong "main_runTime"
            (measuredVoltageToEngineStateTransformer i now v g).2.engine_running_time
    ∧ (measuredVoltageToEngineStateTransformer i now v g).2.preferences.puts
        = g.preferences.puts ++
            [("main_runTime",
              (measuredVoltageToEngineStateTransformer i now v g).2.engine_running_time)]
    ∧ (g.preferences.started = true → g.preferences.commits = true →
        (measuredVoltageToEngineStateTransformer i now v g).2.preferences.entries.lookup
            "main_runTime"
          = some (measuredVoltageToEngineStateTransformer i now v g).2.engine_running_time)
    ∧ (measuredVoltageToEngineStateTransformer i now v g).2.previous_time = now := by
  have hv1 : ¬ v < 1 := not_lt.mpr hv
  rw [transformer_running i now v g hv1 hpos, ← usub_eq_toNat]
  refine ⟨rfl, rfl, ?_, rfl, puts_putULong _ _ _, ?_, rfl⟩
  · intro h
    exact Nat.mod_eq_of_lt h
  · intro hs hc
    simp [Preferences.putULong, hs, hc, List.lookup]

/-- The running step at a concrete input: counter 1, seed 0, 10 s elapsed. -/
theorem running_step_accumulates_witness :
    (1 : ℚ) ≤ 2
    ∧ 0 < (Globals.mk 7 1 ⟨true, true, true, [], []⟩).engine_running_time
    ∧ (measuredVoltageToEngineStateTransformer 0 10007 2
        (Globals.mk 7 1 ⟨true, true, true, [], []⟩)).1 = "running"
    ∧ (measuredVoltageToEngineStateTransformer 0 10007 2
        (Globals.mk 7 1 ⟨true, true, true, [], []⟩)).2.engine_running_time = 11
    ∧ (measuredVoltageToEngineStateTransformer 0 10007 2
        (Globals.mk 7 1 ⟨true, true, true, [], []⟩)).2.preferences.puts
        = [("main_runTime", 11)]
    ∧ (measuredVoltageToEngineStateTransformer 0 10007 2
        (Globals.mk 7 1 ⟨true, true, true, [], []⟩)).2.previous_time = 10007 :=
  have h := running_step_accumulates 0 10007 2 (Globals.mk 7 1 ⟨true, true, true, [], []⟩)
    (by norm_num) (by decide)
  ⟨by norm_num, by decide, h.1, by decide, by decide, h.2.2.2.2.2.2⟩

/-- C2: the label is "stopped" exactly when the voltage is below 1.0 and
"parameter error" exactly when the voltage is at least 1.0 and the counter is
0; every evaluation returning one of these two labels leaves
`engine_running_time` and the store (content and put record) unchanged and
sets `previous_time` to `now`. -/
theorem non_accumulating_states_frame (i now : Nat) (v : ℚ) (g : Globals) :
    ((measuredVoltageToEngineStateTransformer i now v g).1 = "stopped" ↔ v < 1)
    ∧ ((measuredVoltageToEngineStateTransformer i now v g).1 = "parameter error"
        ↔ 1 ≤ v ∧ g.engine_running_time = 0)
    ∧ ((measuredVoltageToEngineStateTransformer i now v g).1 = "stopped"
        ∨ (measuredVoltageToEngineStateTransformer i now v g).1 = "parameter error" →
      (measuredVoltageToEngineStateTransformer i now v g).2.engine_running_time
          = g.engine_running_time
      ∧ (measuredVoltageToEngineStateTransformer i now v g).2.preferences = g.preferences
      ∧ (measuredVoltageToEngineStateTransformer i now v g).2.previous_time = now) := by
  by_cases hv : v < 1
  · rw [transformer_stopped i now v g hv]
    have hv2 : ¬ 1 ≤ v := not_le.mpr hv
    simp [hv, hv2]
  · have hv2 : 1 ≤ v := not_lt.mp hv
    by_cases hpos : 0 < g.engine_running_time
    · rw [transformer_running i now v g hv hpos]
      have hne : g.engine_running_time ≠ 0 := by omega
      simp [hv, hne]
    · have hzero : g.engine_running_time = 0 := by omega
      rw [transformer_error i now v g hv hzero]
      simp [hv, hv2, hzero]

/-- The frame property on a stopped and on a parameter-error evaluation. -/
theorem non_accumulating_states_frame_witness :
    ((measuredVoltageToEngineStateTransformer 0 500 (1 / 2)
          (Globals.mk 7 42 ⟨true, true, true, [], []⟩)).2.engine_running_time = 42
      ∧ (measuredVoltageToEngineStateTransformer 0 500 (1 / 2)
          (Globals.mk 7 42 ⟨true, true, true, [], []⟩)).2.preferences
          = ⟨true, true, true, [], []⟩
      ∧ (measuredVoltageToEngineStateTransformer 0 500 (1 / 2)
          (Globals.mk 7 42 ⟨true, true, true, [], []⟩)).2.previous_time = 500)
    ∧ ((measuredVoltageToEngineStateTransformer 0 500 2
          (Globals.mk 7 0 ⟨false, true, false, [], []⟩)).2.engine_running_time = 0
      ∧ (measuredVoltageToEngineStateTransformer 0 500 2
          (Globals.mk 7 0 ⟨false, true, false, [], []⟩)).2.preferences
          = ⟨false, true, false, [], []⟩
      ∧ (measuredVoltageToEngineStateTransformer 0 500 2
          (Globals.mk 7 0 ⟨false, true, false, [], []⟩)).2.previous_time = 500) :=
  ⟨(non_accumulating_states_frame 0 500 (1 / 2)
      (Globals.mk 7 42 ⟨true, true, true, [], []⟩)).2.2
      (Or.inl ((non_accumulating_states_frame 0 500 (1 / 2)
        (Globals.mk 7 42 ⟨true, true, true, [], []⟩)).1.mpr (by norm_num))),
   (non_accumulating_states_frame 0 500 2
      (Globals.mk 7 0 ⟨false, true, false, [], []⟩)).2.2
      (Or.inr ((non_accumulating_states_frame 0 500 2
        (Globals.mk 7 0 ⟨false, true, false, [], []⟩)).2.1.mpr ⟨by norm_num, rfl⟩))⟩

/-! ## The engine-state transform: sequences of evaluations -/

/-- C3: when opening the store fails at startup, `engine_running_time` starts
at 0, and for every sequence of evaluations: after each evaluation the counter
is 0 and the store (content and put record) is as it was after startup, no
evaluation returns "running", each evaluation returns "stopped" for a voltage
below 1.0 and "parameter error" otherwise, and any further evaluation with
voltage at least 1.0 returns "parameter error". -/
theorem store_unavailable_is_permanent (prefs : Preferences) (i : Nat) (inputs : List Sample)
    (hfail : (prefs.begin "propulsion" false).1 = false) :
    (setup prefs).engine_running_time = 0
    ∧ (∀ r ∈ evaluations i (setup prefs) inputs,
        r.2.engine_running_time = 0 ∧ r.2.preferences = (setup prefs).preferences)
    ∧ (evaluations i (setup prefs) inputs).map Prod.fst
        = inputs.map (fun s => if s.input < 1 then "stopped" else "parameter error")
    ∧ (runGlobals i (setup prefs) inputs).engine_running_time = 0
    ∧ (runGlobals i (setup prefs) inputs).preferences = (setup prefs).preferences
    ∧ (∀ (now : Nat) (v : ℚ), 1 ≤ v →
        (measuredVoltageToEngineStateTransformer i now v
          (runGlobals i (setup prefs) inputs)).1 = "parameter error") := by
  have h0 : (setup prefs).engine_running_time = 0 := by
    simp [setup, hfail]
  have h := evaluations_of_zero i inputs (setup prefs) h0
  refine ⟨h0, h.1, h.2.1, h.2.2.1, h.2.2.2, ?_⟩
  intro now v hv
  rw [transformer_error i now v _ (not_lt.mpr hv) h.2.2.1]

/-- A store that cannot be opened, fed a running-level and a stopped-level
voltage. -/
theorem store_unavailable_is_permanent_witness :
    ((Preferences.mk false true false [] []).begin "propulsion" false).1 = false
    ∧ (setup (Preferences.mk false true false [] [])).engine_running_time = 0
    ∧ (runGlobals 0 (setup (Preferences.mk false true false [] []))
        [⟨5000, 2⟩, ⟨10000, 0⟩]).engine_running_time = 0
    ∧ (measuredVoltageToEngineStateTransformer 0 15000 2
        (runGlobals 0 (setup (Preferences.mk false true false [] []))
          [⟨5000, 2⟩, ⟨10000, 0⟩])).1 = "parameter error" :=
  have h := store_unavailable_is_permanent (Preferences.mk false true false [] []) 0
    [⟨5000, 2⟩, ⟨10000, 0⟩] (by decide)
  ⟨by decide, h.1, h.2.2.2.1, h.2.2.2.2.2 15000 2 (by norm_num)⟩

/-- C5 fails as stated: from counter `2^32 - 1` with one second elapsed, the
evaluation returns "running" and the 32-bit counter wraps to 0, below its
previous value. -/
theorem running_step_can_wrap :
    (measuredVoltageToEngineStateTransformer 0 1000 2
        (Globals.mk 0 4294967295 ⟨true, true, true, [], []⟩)).1 = "running"
    ∧ (measuredVoltageToEngineStateTransformer 0 1000 2
        (Globals.mk 0 4294967295 ⟨true, true, true, [], []⟩)).2.engine_running_time = 0
    ∧ ¬ ((Globals.mk 0 4294967295 ⟨true, true, true, [], []⟩).engine_running_time
        ≤ (measuredVoltageToEngineStateTransformer 0 1000 2
            (Globals.mk 0 4294967295 ⟨true, true, true, [], []⟩)).2.engine_running_time) := by
  decide

/-- C5 (amended): for every evaluation that returns "running" and whose sum
`max(old, initial) + floor(((now - previous_time) mod 2^32) / 1000)` fits in
32 bits, the counter after the evaluation is at least the counter before. -/
theorem running_step_monotone_without_wrap (i now : Nat) (v : ℚ) (g : Globals)
    (hrun : (measuredVoltageToEngineStateTransformer i now v g).1 = "running")
    (hfit : max g.engine_running_time i
      + (((now : Int) - (g.previous_time : Int)) % 2 ^ 32).toNat / 1000 < 2 ^ 32) :
    g.engine_running_time
      ≤ (measuredVoltageToEngineStateTransformer i now v g).2.engine_running_time := by
  obtain ⟨hv, hpos⟩ := (label_running_iff i now v g).mp hrun
  rw [← usub_eq_toNat] at hfit
  rw [transformer_running i now v g hv hpos]
  simp only [uadd, ULONG_MOD]
  rw [Nat.mod_eq_of_lt hfit]
  exact le_trans (le_max_left _ _) (Nat.le_add_right _ _)

/-- Monotonicity at a concrete running evaluation (counter 1, 10 s elapsed). -/
theorem running_step_monotone_without_wrap_witness :
    (measuredVoltageToEngineStateTransformer 0 10007 2
        (Globals.mk 7 1 ⟨true, true, true, [], []⟩)).1 = "running"
    ∧ max (Globals.mk 7 1 ⟨true, true, true, [], []⟩).engine_running_time 0
      + ((((10007 : Nat) : Int)
          - ((Globals.mk 7 1 ⟨true, true, true, [], []⟩).previous_time : Int)) % 2 ^ 32).toNat
        / 1000 < 2 ^ 32
    ∧ (Globals.mk 7 1 ⟨true, true, true, [], []⟩).engine_running_time
      ≤ (measuredVoltageToEngineStateTransformer 0 10007 2
          (Globals.mk 7 1 ⟨true, true, true, [], []⟩)).2.engine_running_time :=
  ⟨by decide, by decide,
    running_step_monotone_without_wrap 0 10007 2 (Globals.mk 7 1 ⟨true, true, true, [], []⟩)
      (by decide) (by decide)⟩

/-- C6 fails as stated: the store opens and holds `2^32 - 2`; the first
"running" evaluation accumulates one second (counter `2^32 - 1`, positive), the
second wraps the counter to 0, and the third returns "parameter error". -/
theorem parameter_error_after_wrap :
    (evaluations 0 (setup ⟨true, true, false, [("main_runTime", 4294967294)], []⟩)
        [⟨1000, 2⟩, ⟨2000, 2⟩, ⟨3000, 2⟩]).map (fun r => (r.1, r.2.engine_running_time))
      = [("running", 4294967295), ("running", 0), ("parameter error", 0)] := by
  decide

/-- C6 (amended): once `engine_running_time` is positive, then along every
sequence of evaluations in which the 32-bit counter does not wrap, the counter
is positive after every evaluation and no evaluation returns
"parameter error". -/
theorem positive_counter_stays_positive_without_wrap (i : Nat) (g : Globals)
    (inputs : List Sample) (hpos : 0 < g.engine_running_time) (hnw : noWrap i g inputs) :
    (∀ r ∈ evaluations i g inputs, 0 < r.2.engine_running_time ∧ r.1 ≠ "parameter error")
    ∧ 0 < (runGlobals i g inputs).engine_running_time :=
  ⟨evaluations_of_pos i inputs g hpos hnw,
    lt_of_lt_of_le hpos (runGlobals_mono i inputs g hnw)⟩

/-- A positive counter through a running, a stopped and a running evaluation. -/
theorem positive_counter_stays_positive_without_wrap_witness :
    0 < (Globals.mk 7 1 ⟨true, true, true, [], []⟩).engine_running_time
    ∧ noWrap 0 (Globals.mk 7 1 ⟨true, true, true, [], []⟩)
        [⟨10007, 2⟩, ⟨15007, 0⟩, ⟨20007, 2⟩]
    ∧ (∀ r ∈ evaluations 0 (Globals.mk 7 1 ⟨true, true, true, [], []⟩)
          [⟨10007, 2⟩, ⟨15007, 0⟩, ⟨20007, 2⟩],
        0 < r.2.engine_running_time ∧ r.1 ≠ "parameter error")
    ∧ 0 < (runGlobals 0 (Globals.mk 7 1 ⟨true, true, true, [], []⟩)
        [⟨10007, 2⟩, ⟨15007, 0⟩, ⟨20007, 2⟩]).engine_running_time :=
  ⟨by decide, by decide,
    positive_counter_stays_positive_without_wrap 0 (Globals.mk 7 1 ⟨true, true, true, [], []⟩)
      [⟨10007, 2⟩, ⟨15007, 0⟩, ⟨20007, 2⟩] (by decide) (by decide)⟩

/-- C10: in every sequence of evaluations in which the 32-bit counter does not
wrap (`s`, then `middle`, then `rest`), once an evaluation has returned
"running" (`s`) the counter is at least `initial_engine_running_time` after
every later evaluation (after every `middle`); hence no later evaluation
executes the seed assignment (it can run only in the first "running"
evaluation), and the counter never decreases from then on, so no accumulated
second is discarded. -/
theorem seed_clamp_is_one_shot (i : Nat) (g : Globals) (s : Sample)
    (middle rest : List Sample)
    (hrun : (measuredVoltageToEngineStateTransformer i s.current_time s.input g).1 = "running")
    (hnw : noWrap i g (s :: (middle ++ rest))) :
    i ≤ (runGlobals i
          (measuredVoltageToEngineStateTransformer i s.current_time s.input g).2
          middle).engine_running_time
    ∧ (∀ v : ℚ, ¬ seedAssigned i v
        (runGlobals i (measuredVoltageToEngineStateTransformer i s.current_time s.input g).2
          middle))
    ∧ g.engine_running_time
        ≤ (measuredVoltageToEngineStateTransformer i s.current_time s.input
            g).2.engine_running_time
    ∧ (measuredVoltageToEngineStateTransformer i s.current_time s.input
            g).2.engine_running_time
        ≤ (runGlobals i
            (measuredVoltageToEngineStateTransformer i s.current_time s.input g).2
            middle).engine_running_time
    ∧ (runGlobals i
            (measuredVoltageToEngineStateTransformer i s.current_time s.input g).2
            middle).engine_running_time
        ≤ (runGlobals i
            (measuredVoltageToEngineStateTransformer i s.current_time s.input g).2
            (middle ++ rest)).engine_running_time := by
  have hseed := step_running_seed i s g hnw.1 hrun
  have hsplit := noWrap_append i middle rest _ hnw.2
  have hmono := runGlobals_mono i middle _ hsplit.1
  have hinv := le_trans hseed hmono
  refine ⟨hinv, ?_, step_mono i s g hnw.1, hmono, ?_⟩
  · intro v hassigned
    exact absurd hassigned.2.2 (not_lt.mpr hinv)
  · rw [runGlobals_append]
    exact runGlobals_mono i rest _ hsplit.2

/-- Seed 100 with the counter at the sentinel 1: the first running evaluation
executes the seed assignment and lifts the counter to the seed; afterwards the
counter stays at or above the seed and the assignment is not executed again. -/
theorem seed_clamp_is_one_shot_witness :
    (measuredVoltageToEngineStateTransformer 100 5000 2
        (Globals.mk 0 1 ⟨true, true, true, [], []⟩)).1 = "running"
    ∧ noWrap 100 (Globals.mk 0 1 ⟨true, true, true, [], []⟩)
        [⟨5000, 2⟩, ⟨10000, 2⟩, ⟨15000, 0⟩, ⟨20000, 2⟩]
    ∧ seedAssigned 100 2 (Globals.mk 0 1 ⟨true, true, true, [], []⟩)
    ∧ 100 ≤ (runGlobals 100
          (measuredVoltageToEngineStateTransformer 100 5000 2
            (Globals.mk 0 1 ⟨true, true, true, [], []⟩)).2
          [⟨10000, 2⟩, ⟨15000, 0⟩]).engine_running_time
    ∧ ¬ seedAssigned 100 2 (runGlobals 100
          (measuredVoltageToEngineStateTransformer 100 5000 2
            (Globals.mk 0 1 ⟨true, true, true, [], []⟩)).2
          [⟨10000, 2⟩, ⟨15000, 0⟩]) :=
  have h := seed_clamp_is_one_shot 100 (Globals.mk 0 1 ⟨true, true, true, [], []⟩)
    ⟨5000, 2⟩ [⟨10000, 2⟩, ⟨15000, 0⟩] [⟨20000, 2⟩] (by decide) (by decide)
  ⟨by decide, by decide, by decide, h.1, h.2.1 2⟩

/-! ## Persistence across a restart -/

/-- C7: after an evaluation that returns "running" on an open store that
commits the write, the startup initialisation of a new process whose store
opens and holds the resulting durable content reads (key "main_runTime",
default 1) exactly the `engine_running_time` the previous process held after
that evaluation. -/
theorem durable_round_trip_across_restart (i now : Nat) (v : ℚ) (g : Globals)
    (fresh : Preferences)
    (hrun : (measuredVoltageToEngineStateTransformer i now v g).1 = "running")
    (hstarted : g.preferences.started = true) (hcommits : g.preferences.commits = true)
    (hentries : fresh.entries
      = (measuredVoltageToEngineStateTransformer i now v g).2.preferences.entries)
    (hopens : fresh.opens = true) :
    (setup fresh).engine_running_time
      = (measuredVoltageToEngineStateTransformer i now v g).2.engine_running_time := by
  obtain ⟨hv, hpos⟩ := (label_running_iff i now v g).mp hrun
  rw [transformer_running i now v g hv hpos] at hentries ⊢
  simp only [Preferences.putULong, hstarted, hcommits, Bool.and_self, if_true] at hentries
  simp [setup, Preferences.begin, hopens, Preferences.getULong, hentries, List.lookup]

/-- A restart after the counter went from 1 to 11. -/
theorem durable_round_trip_across_restart_witness :
    (measuredVoltageToEngineStateTransformer 0 10007 2
        (Globals.mk 7 1 ⟨true, true, true, [], []⟩)).1 = "running"
    ∧ (measuredVoltageToEngineStateTransformer 0 10007 2
        (Globals.mk 7 1 ⟨true, true, true, [], []⟩)).2.preferences.entries
        = [("main_runTime", 11)]
    ∧ (setup ⟨true, true, false, [("main_runTime", 11)], []⟩).engine_running_time
      = (measuredVoltageToEngineStateTransformer 0 10007 2
          (Globals.mk 7 1 ⟨true, true, true, [], []⟩)).2.engine_running_time :=
  ⟨by decide, by decide,
    durable_round_trip_across_restart 0 10007 2 (Globals.mk 7 1 ⟨true, true, true, [], []⟩)
      ⟨true, true, false, [("main_runTime", 11)], []⟩ (by decide) rfl rfl (by decide) rfl⟩

/-! ## The tracker scenario -/

/-- C8: with a store that opens and holds no value under "main_runTime" (so
the counter starts at the sentinel 1), seed 0, and the voltages 0.5 at `t0`,
2.0 ten seconds later and 2.0 a further five seconds later (32-bit millisecond
clock), the labels are stopped, running, running and the counter after the
three evaluations is 1, 11 and 16. -/
theorem tracker_run_from_empty_store (prefs : Preferences) (t0 : Nat)
    (hopens : prefs.opens = true)
    (hnone : prefs.entries.lookup "main_runTime" = none) :
    (setup prefs).engine_running_time = 1
    ∧ (evaluations 0 (setup prefs)
          [⟨t0 % 2 ^ 32, 1 / 2⟩, ⟨(t0 + 10000) % 2 ^ 32, 2⟩,
            ⟨(t0 + 15000) % 2 ^ 32, 2⟩]).map (fun r => (r.1, r.2.engine_running_time))
        = [("stopped", 1), ("running", max 1 0 + 10), ("running", max 1 0 + 10 + 5)] := by
  have hs : setup prefs = ⟨0, 1, { prefs with started := true }⟩ := by
    simp [setup, Preferences.begin, hopens, Preferences.getULong, hnone]
  have h1 : usub ((t0 + 10000) % 2 ^ 32) (t0 % 2 ^ 32) = 10000 := by
    unfold usub ULONG_MOD
    omega
  have h2 : usub ((t0 + 15000) % 2 ^ 32) ((t0 + 10000) % 2 ^ 32) = 5000 := by
    unfold usub ULONG_MOD
    omega
  have hlow : ((1 : ℚ) / 2) < 1 := by norm_num
  have hhigh : ¬ ((2 : ℚ) < 1) := by norm_num
  rw [hs]
  refine ⟨rfl, ?_⟩
  simp only [evaluations, List.map_cons, List.map_nil]
  rw [transformer_stopped 0 _ _ _ hlow]
  rw [transformer_running 0 _ 2 _ hhigh (by show 0 < 1; decide)]
  simp only [h1]
  rw [transformer_running 0 _ 2 _ hhigh (by show 0 < uadd (max 1 0) (10000 / 1000); decide)]
  simp only [h2]
  have e1 : uadd (max 1 0) (10000 / 1000) = max 1 0 + 10 := by decide
  have e2 : uadd (max (max 1 0 + 10) 0) (5000 / 1000) = max 1 0 + 10 + 5 := by decide
  rw [e1, e2]

/-- The scenario on an empty store with `t0 = 7` ms. -/
theorem tracker_run_from_empty_store_witness :
    (Preferences.mk true true false [] []).opens = true
    ∧ (Preferences.mk true true false [] []).entries.lookup "main_runTime" = none
    ∧ (setup (Preferences.mk true true false [] [])).engine_running_time = 1
    ∧ (evaluations 0 (setup (Preferences.mk true true false [] []))
          [⟨7 % 2 ^ 32, 1 / 2⟩, ⟨(7 + 10000) % 2 ^ 32, 2⟩,
            ⟨(7 + 15000) % 2 ^ 32, 2⟩]).map (fun r => (r.1, r.2.engine_running_time))
        = [("stopped", 1), ("running", max 1 0 + 10), ("running", max 1 0 + 10 + 5)] :=
  ⟨rfl, rfl, tracker_run_from_empty_store (Preferences.mk true true false [] []) 7 rfl rfl⟩

/-! ## Two-point calibration -/

/-- C4: for every pair of distinct calibration voltages, each (scale, offset)
pair built by the code satisfies, in exact arithmetic,
`scale * voltage_low + offset = value_low` and
`scale * voltage_high + offset = value_high`: the tank-level transform maps
empty to 0 and full to 1, the tank-volume transform maps them to 0 and the
capacity, and the alternator and battery transforms map the measured minimum
to 0 and the measured maximum to the real maximum.  With (0.142, 0) and
(3.134, 1): apply(0.142) = 0, apply(3.134) = 1, apply(1.638) = 0.5. -/
theorem two_point_calibration_hits_anchors (voltage_low voltage_high capacity real_max : ℚ)
    (hdistinct : voltage_high ≠ voltage_low) :
    ((linearTankLevelTransformer voltage_high voltage_low).multiplier * voltage_low
        + (linearTankLevelTransformer voltage_high voltage_low).offset = 0
      ∧ (linearTankLevelTransformer voltage_high voltage_low).multiplier * voltage_high
        + (linearTankLevelTransformer voltage_high voltage_low).offset = 1)
    ∧ ((linearTankVolumeTransformer capacity voltage_high voltage_low).multiplier * voltage_low
        + (linearTankVolumeTransformer capacity voltage_high voltage_low).offset = 0
      ∧ (linearTankVolumeTransformer capacity voltage_high voltage_low).multiplier
          * voltage_high
        + (linearTankVolumeTransformer capacity voltage_high voltage_low).offset = capacity)
    ∧ (∀ l ∈ [linearMeasuredAlternatorVoltageTransformer real_max voltage_high voltage_low,
              linearMeasuredBattery0VoltageTransformer real_max voltage_high voltage_low,
              linearMeasuredBattery1VoltageTransformer real_max voltage_high voltage_low],
        l.multiplier * voltage_low + l.offset = 0
        ∧ l.multiplier * voltage_high + l.offset = real_max)
    ∧ ((linearTankLevelTransformer voltage_high voltage_low).apply voltage_low = 0
      ∧ (linearTankLevelTransformer voltage_high voltage_low).apply voltage_high = 1
      ∧ (linearTankVolumeTransformer capacity voltage_high voltage_low).apply voltage_low = 0
      ∧ (linearTankVolumeTransformer capacity voltage_high voltage_low).apply voltage_high
          = capacity
      ∧ (∀ l ∈ [linearMeasuredAlternatorVoltageTransformer real_max voltage_high voltage_low,
              linearMeasuredBattery0VoltageTransformer real_max voltage_high voltage_low,
              linearMeasuredBattery1VoltageTransformer real_max voltage_high voltage_low],
          l.apply voltage_low = 0 ∧ l.apply voltage_high = real_max))
    ∧ ((linearTankLevelTransformer (3134 / 1000) (142 / 1000)).apply (142 / 1000) = 0
      ∧ (linearTankLevelTransformer (3134 / 1000) (142 / 1000)).apply (3134 / 1000) = 1
      ∧ (linearTankLevelTransformer (3134 / 1000) (142 / 1000)).apply (1638 / 1000) = 1 / 2) := by
  have hne : voltage_high - voltage_low ≠ 0 := sub_ne_zero.mpr hdistinct
  have e1 : 1 / (voltage_high - voltage_low) * voltage_low
      + (-1 * voltage_low) / (voltage_high - voltage_low) = 0 := by
    field_simp
  have e2 : 1 / (voltage_high - voltage_low) * voltage_high
      + (-1 * voltage_low) / (voltage_high - voltage_low) = 1 := by
    field_simp
    ring
  have e3 : ∀ c : ℚ, c / (voltage_high - voltage_low) * voltage_low
      + (-c * voltage_low) / (voltage_high - voltage_low) = 0 := by
    intro c
    field_simp
  have e4 : ∀ c : ℚ, c / (voltage_high - voltage_low) * voltage_high
      + (-c * voltage_low) / (voltage_high - voltage_low) = c := by
    intro c
    field_simp
    ring
  refine ⟨⟨e1, e2⟩, ⟨e3 capacity, e4 capacity⟩, ?_, ⟨?_, ?_, ?_, ?_, ?_⟩, ?_⟩
  · intro l hl
    simp only [List.mem_cons, List.mem_singleton, List.not_mem_nil, or_false] at hl
    rcases hl with rfl | rfl | rfl <;> exact ⟨e3 real_max, e4 real_max⟩
  · simp only [Linear.apply, linearTankLevelTransformer]; rw [mul_comm]; exact e1
  · simp only [Linear.apply, linearTankLevelTransformer]; rw [mul_comm]; exact e2
  · simp only [Linear.apply, linearTankVolumeTransformer]; rw [mul_comm]; exact e3 capacity
  · simp only [Linear.apply, linearTankVolumeTransformer]; rw [mul_comm]; exact e4 capacity
  · intro l hl
    simp only [List.mem_cons, List.mem_singleton, List.not_mem_nil, or_false] at hl
    rcases hl with rfl | rfl | rfl <;>
      exact ⟨by simp only [Linear.apply]; rw [mul_comm]; exact e3 real_max,
             by simp only [Linear.apply]; rw [mul_comm]; exact e4 real_max⟩
  · simp only [Linear.apply, linearTankLevelTransformer]
    norm_num

/-- The shipped calibration: 0.142 V to 3.134 V, 0.060 m3, 14.33 V. -/
theorem two_point_calibration_hits_anchors_witness :
    ((3134 : ℚ) / 1000 ≠ 142 / 1000)
    ∧ (linearTankVolumeTransformer (60 / 1000) (3134 / 1000) (142 / 1000)).apply (142 / 1000)
        = 0
    ∧ (linearTankVolumeTransformer (60 / 1000) (3134 / 1000) (142 / 1000)).apply (3134 / 1000)
        = 60 / 1000
    ∧ (linearTankLevelTransformer (3134 / 1000) (142 / 1000)).apply (1638 / 1000) = 1 / 2 :=
  have h := two_point_calibration_hits_anchors (142 / 1000) (3134 / 1000) (60 / 1000)
    (1433 / 100) (by norm_num)
  ⟨by norm_num, h.2.2.2.1.2.2.1, h.2.2.2.1.2.2.2.1, h.2.2.2.2.2.2⟩

/-! ## Degenerate calibration -/

end EnBaFu
